import Mathlib

/-!
Verification of the City Scan CSV cleaning script (`src/clean.py`).

The script is a flat collection of pandas record-transform routines, one per
dataset, plus a filename dispatcher.  Each routine is embedded here as a pure
function on lists of records: CSV rows become structures, pandas `NaN` /
nullable cells become `Option` values, and numeric cells are exact rationals.
`pct_change`, `merge`, `groupby`, `sort_values`, `round` and the column
presence checks are modelled one to one from the source; comments cite the
relevant lines of `clean.py`.
-/

/- Batteries marks the core `Rat` arithmetic irreducible; re-enable unfolding
so that concrete runs of the embedded transforms can be checked by `decide`. -/
attribute [local semireducible] Rat.add Rat.mul Rat.inv Rat.sub

/-- Floor of a rational, via flooring integer division. -/
def ratFloor (x : ℚ) : ℤ := Int.fdiv x.num x.den

/-- Round to `d` decimal places (pandas `.round(d)` on the exact rational
value, with halves rounded up). -/
def roundTo (d : ℕ) (x : ℚ) : ℚ := (ratFloor (x * 10 ^ d + 1/2) : ℚ) / 10 ^ d

/-- Leading-match test: does `pat` occur at the head of `cs`? -/
def matchAt : List Char → List Char → Bool
  | [], _ => true
  | _ :: _, [] => false
  | p :: ps, c :: cs => p == c && matchAt ps cs

/-- Does `pat` occur anywhere in the character list? -/
def subSearch : List Char → List Char → Bool
  | pat, [] => pat.isEmpty
  | pat, c :: cs => matchAt pat (c :: cs) || subSearch pat cs

/-- Python's substring test `pat in s`. -/
def hasSub (s pat : String) : Bool := subSearch pat.data s.data

/-- ASCII lower-casing of one character (for pandas `case=False` matching). -/
def charToLower (c : Char) : Char :=
  if 'A' ≤ c && c ≤ 'Z' then Char.ofNat (c.toNat + 32) else c

/-- ASCII lower-casing of a string. -/
def lowerStr (s : String) : String := ⟨s.data.map charToLower⟩

/-- Code-point lexicographic strict order on character lists (Python string
comparison, used by `sort_values` on string columns). -/
def charListLt : List Char → List Char → Bool
  | [], [] => false
  | [], _ :: _ => true
  | _ :: _, [] => false
  | a :: as, b :: bs => a < b || (a == b && charListLt as bs)

/-- Strict string order. -/
def strLtB (a b : String) : Bool := charListLt a.data b.data

/-- Non-strict string order. -/
def strLeB (a b : String) : Bool := a == b || strLtB a b

/-! ## Population growth (`clean_pg`, clean.py lines 13-59) -/

/-- One row of the population-growth input CSV: columns `Year`, `Population`. -/
structure PGIn where
  Year : ℤ
  Population : ℚ
deriving DecidableEq, Inhabited

/-- One row of `pg.csv`: `yearName`, `population`, `populationGrowthPercentage`
(the latter is `NaN`, i.e. `none`, on the first row). -/
structure PGOut where
  yearName : ℤ
  population : ℚ
  populationGrowthPercentage : Option ℚ
deriving DecidableEq, Inhabited

/-- `df.sort_values('Year')` (clean.py line 29): stable ascending sort. -/
def sortByYear (rows : List PGIn) : List PGIn :=
  List.insertionSort (fun a b => a.Year ≤ b.Year) rows

/-- One output row given the previous row's population (`pct_change() * 100`
then `.round(3)`, clean.py lines 39-42); no previous row gives `NaN`. -/
def pgStep (prev : Option ℚ) (r : PGIn) : PGOut :=
  { yearName := r.Year, population := r.Population,
    populationGrowthPercentage :=
      prev.map (fun p => roundTo 3 ((r.Population - p) / p * 100)) }

/-- Walk the sorted rows threading the previous population through. -/
def pgRows : Option ℚ → List PGIn → List PGOut
  | _, [] => []
  | prev, r :: rest => pgStep prev r :: pgRows (some r.Population) rest

/-- The population-growth transform (clean.py lines 13-59, pure part). -/
def clean_pg (rows : List PGIn) : List PGOut :=
  pgRows none (sortByYear rows)

/-! ## Population age/sex (`clean_pas`, clean.py lines 62-139) -/

/-- One row of the demographics input CSV: `age_group`, `sex`, `population`. -/
structure PASIn where
  age_group : String
  sex : String
  population : ℚ
deriving DecidableEq, Inhabited

/-- One row of `pas.csv`. -/
structure PASOut where
  ageBracket : String
  sex : String
  count : ℚ
  percentage : ℚ
  yearName : ℤ
deriving DecidableEq, Inhabited

/-- `replace({'0-1': '0-4', '1-4': '0-4'})` (clean.py line 78). -/
def replaceAge (a : String) : String :=
  if a = "0-1" then "0-4" else if a = "1-4" then "0-4" else a

/-- `replace({'f': 'female', 'm': 'male'})` (clean.py line 86). -/
def expandSex (s : String) : String :=
  if s = "f" then "female" else if s = "m" then "male" else s

/-- Apply the age-bracket relabelling to one row. -/
def mergeRow (r : PASIn) : PASIn := { r with age_group := replaceAge r.age_group }

/-- The distinct `(age_group, sex)` group keys after relabelling
(`groupby(['age_group', 'sex'])`, clean.py line 81).  The groupby sorts its
keys, but the final `sort_values(['ageBracket', 'sex'])` below makes the key
order here irrelevant, so first-occurrence order is used. -/
def pasKeys (rows : List PASIn) : List (String × String) :=
  ((rows.map mergeRow).map (fun r => (r.age_group, r.sex))).dedup

/-- Population sum of one `(age_group, sex)` group (`['population'].sum()`). -/
def pasGroupSum (rows : List PASIn) (k : String × String) : ℚ :=
  (((rows.map mergeRow).filter
      (fun r => r.age_group == k.1 && r.sex == k.2)).map PASIn.population).sum

/-- `df_grouped['population'].sum()` (clean.py line 88): total over groups. -/
def pasTotal (rows : List PASIn) : ℚ :=
  ((pasKeys rows).map (pasGroupSum rows)).sum

/-- One output row (clean.py lines 84-90): `count` rounded to 2 places,
`percentage` to 7 places, `yearName` hard-coded to 2021. -/
def pasRow (rows : List PASIn) (k : String × String) : PASOut :=
  { ageBracket := k.1, sex := expandSex k.2,
    count := roundTo 2 (pasGroupSum rows k),
    percentage := roundTo 7 (pasGroupSum rows k / pasTotal rows * 100),
    yearName := 2021 }

/-- The age/sex transform (clean.py lines 62-139, pure part).  On lines
109-117 the categorical sort always raises inside the `try` block (the
`.drop('age_sort')` call drops a missing row label), so the `except` path
runs: the output is sorted by `(ageBracket, sex)` in plain string order. -/
def clean_pas (rows : List PASIn) : List PASOut :=
  List.insertionSort
    (fun a b =>
      (strLtB a.ageBracket b.ageBracket ||
        (a.ageBracket == b.ageBracket && strLeB a.sex b.sex)) = true)
    ((pasKeys rows).map (pasRow rows))

/-! ## Urban built-up area (`clean_uba`, clean.py lines 142-189) -/

/-- One row of the WSF stats input CSV: `year`, `cumulative sq km`. -/
structure UBAIn where
  year : ℤ
  cumulative_sq_km : ℚ
deriving DecidableEq, Inhabited

/-- One row of `uba.csv`: sequential `year` index, `yearName`, `uba` (rounded
to 2 places), `ubaGrowthPercentage` (`NaN` on the first row). -/
structure UBAOut where
  year : ℤ
  yearName : ℤ
  uba : ℚ
  ubaGrowthPercentage : Option ℚ
deriving DecidableEq, Inhabited

/-- `df.sort_values('year')` (clean.py line 158). -/
def sortUBAByYear (rows : List UBAIn) : List UBAIn :=
  List.insertionSort (fun a b => a.year ≤ b.year) rows

/-- Walk the sorted rows: `year` counts from 1, `uba` is rounded to 2 places
(line 164) and the growth percentage is `pct_change` of the rounded column
(lines 169-172), threading the previous rounded value through. -/
def ubaRows : ℕ → Option ℚ → List UBAIn → List UBAOut
  | _, _, [] => []
  | i, prev, r :: rest =>
      let u := roundTo 2 r.cumulative_sq_km
      { year := (i : ℤ) + 1, yearName := r.year, uba := u,
        ubaGrowthPercentage := prev.map (fun p => roundTo 3 ((u - p) / p * 100)) }
        :: ubaRows (i + 1) (some u) rest

/-- The urban built-up-area transform (clean.py lines 142-189, pure part). -/
def clean_uba (rows : List UBAIn) : List UBAOut :=
  ubaRows 0 none (sortUBAByYear rows)

/-! ## Population-urban growth join (`clean_pug`, clean.py lines 261-353) -/

/-- One row of `pug.csv` (the inner merge of `pg.csv` and `uba.csv` on
`yearName`, plus `density` and `populationUrbanGrowthRatio`). -/
structure PugRow where
  yearName : ℤ
  population : ℚ
  populationGrowthPercentage : Option ℚ
  year : ℤ
  uba : ℚ
  ubaGrowthPercentage : Option ℚ
  density : ℚ
  populationUrbanGrowthRatio : Option ℚ
deriving DecidableEq, Inhabited

/-- The ratio column (clean.py lines 311-316): rows where
`ubaGrowthPercentage != 0` get `populationGrowthPercentage /
ubaGrowthPercentage` rounded to 3 places, the rest stay `None`.  In pandas
`NaN != 0` holds, and dividing by (or into) `NaN` yields `NaN`, so a `NaN`
growth value on either side also leaves the ratio undefined. -/
def ratioOf (pg ubag : Option ℚ) : Option ℚ :=
  if ubag = some 0 then none
  else
    match pg, ubag with
    | some p, some g => some (roundTo 3 (p / g))
    | _, _ => none

/-- One merged row: both inputs' columns, `density` (line 307) and the ratio. -/
def mkPug (p : PGOut) (u : UBAOut) : PugRow :=
  { yearName := p.yearName, population := p.population,
    populationGrowthPercentage := p.populationGrowthPercentage,
    year := u.year, uba := u.uba,
    ubaGrowthPercentage := u.ubaGrowthPercentage,
    density := roundTo 3 (p.population / u.uba),
    populationUrbanGrowthRatio :=
      ratioOf p.populationGrowthPercentage u.ubaGrowthPercentage }

/-- `pd.merge(pg_df, uba_df, on='yearName', how='inner')` (clean.py line
300): every pg row pairs with every uba row sharing its `yearName`,
preserving the left table's row order. -/
def joinPug (pg : List PGOut) (uba : List UBAOut) : List PugRow :=
  pg.flatMap (fun p =>
    (uba.filter (fun u => u.yearName == p.yearName)).map (mkPug p))

/-- The join transform (clean.py lines 261-353, pure part): an empty merge
raises `ValueError` (lines 303-304), otherwise it returns the merged rows. -/
def clean_pug (pg : List PGOut) (uba : List UBAOut) : Except String (List PugRow) :=
  if (joinPug pg uba).isEmpty then
    Except.error "No overlapping years found between population growth and urban built area data"
  else Except.ok (joinPug pg uba)

/-! ## Land cover (`clean_lc`, clean.py lines 192-247) -/

/-- One row of the land-cover input CSV: `Land Cover Type`, `Pixel Count`. -/
structure LCIn where
  land_cover_type : String
  pixel_count : ℚ
deriving DecidableEq, Inhabited

/-- One row of `lc.csv`. -/
structure LCOut where
  lcType : String
  pixelCount : ℤ
  pixelTotal : ℚ
  percentage : ℚ
deriving DecidableEq, Inhabited

/-- The row filter (clean.py lines 209-212): keep rows with a positive pixel
count whose type does not contain "total" case-insensitively. -/
def lcKeep (r : LCIn) : Bool :=
  (0 < r.pixel_count) && !(hasSub (lowerStr r.land_cover_type) "total")

/-- The land-cover transform (clean.py lines 192-247, pure part): filter,
compute the percentage over the filtered total, sort by descending
percentage. -/
def clean_lc (rows : List LCIn) : List LCOut :=
  let filtered := rows.filter lcKeep
  let total := (filtered.map LCIn.pixel_count).sum
  List.insertionSort (fun a b => b.percentage ≤ a.percentage)
    (filtered.map (fun r =>
      { lcType := r.land_cover_type,
        pixelCount := ratFloor (r.pixel_count + 1/2),
        pixelTotal := total,
        percentage := roundTo 2 (r.pixel_count / total * 100) }))

/-! ## Photovoltaic potential (`clean_pv`, clean.py lines 356-413) -/

/-- One row of the monthly-pv input CSV: `month`, `max`. -/
structure PVIn where
  month : ℤ
  max : ℚ
deriving DecidableEq, Inhabited

/-- One row of `pv.csv`; `monthName` is `NaN` for months outside 1-12. -/
structure PVOut where
  month : ℤ
  monthName : Option String
  maxPv : ℚ
deriving DecidableEq, Inhabited

/-- The month-name mapping (clean.py lines 375-378); `.map` on a dict gives
`NaN` for keys not in the dict. -/
def monthNameOf (m : ℤ) : Option String :=
  if m = 1 then some "Jan" else if m = 2 then some "Feb"
  else if m = 3 then some "Mar" else if m = 4 then some "Apr"
  else if m = 5 then some "May" else if m = 6 then some "Jun"
  else if m = 7 then some "Jul" else if m = 8 then some "Aug"
  else if m = 9 then some "Sep" else if m = 10 then some "Oct"
  else if m = 11 then some "Nov" else if m = 12 then some "Dec"
  else none

/-- The photovoltaic transform (clean.py lines 356-413, pure part). -/
def clean_pv (rows : List PVIn) : List PVOut :=
  List.insertionSort (fun a b => a.month ≤ b.month)
    (rows.map (fun r =>
      { month := r.month, monthName := monthNameOf r.month,
        maxPv := roundTo 2 r.max }))

/-! ## Earthquake events (`clean_ee`, clean.py lines 521-575) -/

/-- One row of the earthquake input CSV.  `BEGAN_year` models
`pd.to_datetime(df['BEGAN'], errors='coerce').dt.year` (clean.py line 537):
`none` when the date fails to parse.  `distance` and `eqMagnitude` may be
`NaN`. -/
structure EEIn where
  BEGAN_year : Option ℤ
  distance : Option ℚ
  eqMagnitude : Option ℚ
  text : String
  line1 : String
  line2 : String
  line3 : String
deriving DecidableEq, Inhabited

/-- One row of `ee.csv`. -/
structure EEOut where
  begin_year : ℤ
  distance : Option ℤ
  eqMagnitude : Option ℚ
  text : String
  line1 : String
  line2 : String
  line3 : String
deriving DecidableEq, Inhabited

/-- The earthquake transform (clean.py lines 521-575, pure part): drop rows
with unparseable dates (line 551), round `distance` to whole numbers and
`eqMagnitude` to 1 place, sort chronologically. -/
def clean_ee (rows : List EEIn) : List EEOut :=
  List.insertionSort (fun a b => a.begin_year ≤ b.begin_year)
    ((rows.filter (fun r => r.BEGAN_year.isSome)).map (fun r =>
      { begin_year := r.BEGAN_year.getD 0,
        distance := r.distance.map (fun d => ratFloor (d + 1/2)),
        eqMagnitude := r.eqMagnitude.map (roundTo 1),
        text := r.text, line1 := r.line1, line2 := r.line2, line3 := r.line3 }))

/-! ## Fire weather index (`clean_fwi`, clean.py lines 578-688) -/

/-- `get_month_name_iso` (clean.py lines 596-621): the fixed week-to-month
bucket table. -/
def get_month_name_iso (week : ℕ) : String :=
  if week ≤ 4 then "Jan"
  else if week ≤ 9 then "Feb"
  else if week ≤ 13 then "Mar"
  else if week ≤ 17 then "Apr"
  else if week ≤ 22 then "May"
  else if week ≤ 26 then "Jun"
  else if week ≤ 30 then "Jul"
  else if week ≤ 35 then "Aug"
  else if week ≤ 39 then "Sep"
  else if week ≤ 43 then "Oct"
  else if week ≤ 47 then "Nov"
  else "Dec"

/-- `categorize_danger` (clean.py lines 626-645): `pd.isna` first, then the
fixed thresholds. -/
def categorize_danger (fwi : Option ℚ) : String :=
  match fwi with
  | none => "Unknown"
  | some x =>
    if x < 52/10 then "Very low"
    else if x < 112/10 then "Low"
    else if x < 213/10 then "Moderate"
    else if x < 38 then "High"
    else if x < 50 then "Very high"
    else "Extreme"

/-- One row of the FWI input CSV: `week`, `pctile_95` (possibly `NaN`). -/
structure FWIIn where
  week : ℕ
  pctile_95 : Option ℚ
deriving DecidableEq, Inhabited

/-- One row of `fwi.csv`. -/
structure FWIOut where
  week : ℕ
  monthName : String
  fwi : Option ℚ
  danger : String
deriving DecidableEq, Inhabited

/-- The fire-weather transform (clean.py lines 578-688, pure part). -/
def clean_fwi (rows : List FWIIn) : List FWIOut :=
  List.insertionSort (fun a b => a.week ≤ b.week)
    (rows.map (fun r =>
      { week := r.week, monthName := get_month_name_iso r.week,
        fwi := r.pctile_95.map (roundTo 2),
        danger := categorize_danger r.pctile_95 }))

/-! ## Flood (`clean_flood`, clean.py lines 416-519) -/

/-- A wide input table: an association list of column name to column values
(the flood input has flexible columns, so no fixed record type fits). -/
def Table : Type := List (String × List ℚ)

/-- `df.columns`. -/
def colNames (t : Table) : List String := t.map Prod.fst

/-- Exact column access `df[c]`; `none` models a `KeyError`. -/
def lookupCol (t : Table) (c : String) : Option (List ℚ) :=
  (List.find? (fun p => p.1 == c) t).map Prod.snd

/-- The availability check (clean.py lines 445-452):
`any('coastal_2020' in col for col in df.columns)` - a substring test over
the column names, not an exact membership test. -/
def floodHas (t : Table) (c : String) : Bool :=
  (colNames t).any (fun col => hasSub col c)

/-- One row of a per-flood-type output file. -/
structure FloodRow where
  year : ℕ
  yearName : ℚ
  value : ℚ
deriving DecidableEq, Inhabited

/-- One flood-type output table (clean.py lines 471-478): sequential `year`
from 1, `yearName` from the input `year` column, values rounded to 2 places,
sorted by `yearName`. -/
def floodTypeTable (ys vs : List ℚ) : List FloodRow :=
  List.insertionSort (fun a b => a.yearName ≤ b.yearName)
    ((ys.zip vs).enum.map (fun p =>
      { year := p.1 + 1, yearName := p.2.1, value := roundTo 2 p.2.2 }))

/-- The four recognized flood columns with their output file names, in the
order the availability dict is built (clean.py lines 445-452) and hence the
order the loop processes them (Python dicts preserve insertion order). -/
def floodCols : List (String × String) :=
  [("coastal_2020", "cu.csv"), ("fluvial_2020", "fu.csv"),
   ("pluvial_2020", "pu.csv"), ("comb_2020", "comb.csv")]

/-- The per-type loop (clean.py lines 466-487).  `osImported` records whether
`import os` ran: it only runs in the default-output-directory branch (lines
436-439), yet `os.path.join` is used unconditionally when saving (line 481),
so with an explicit `output_dir` the first save raises `UnboundLocalError`
before any file is written.  A present-by-substring but exactly-missing
column raises `KeyError` at `df[column_name]` (line 474). -/
def floodRun (t : Table) (osImported : Bool) :
    List (String × String) → List (String × List FloodRow) × Option String
  | [] => ([], none)
  | (c, fname) :: rest =>
    if floodHas t c then
      match lookupCol t "year", lookupCol t c with
      | some ys, some vs =>
        if osImported then
          let r := floodRun t osImported rest
          ((fname, floodTypeTable ys vs) :: r.1, r.2)
        else ([], some "UnboundLocalError: os")
      | _, _ => ([], some "KeyError")
    else floodRun t osImported rest

/-- The flood transform (clean.py lines 416-519): returns the list of created
files (name and contents) and, when the run aborts, the raised error. -/
def clean_flood (t : Table) (output_dir : Option String) :
    List (String × List FloodRow) × Option String :=
  floodRun t output_dir.isNone floodCols

/-! ## Dispatcher (`__main__`, clean.py lines 691-723) -/

/-- The nine transforms the dispatcher can select. -/
inductive Transform
  | pg | pas | uba | pug | pv | flood | ee | lc | fwi
deriving DecidableEq

/-- The filename dispatcher (clean.py lines 700-723): a first-match if/elif
chain of substring tests ('wsft_stats' is the literal the source tests,
typo included); no match falls through to the usage message, modelled as
`none`. -/
def dispatch (input_file : String) : Option Transform :=
  if hasSub input_file "population-growth" then some Transform.pg
  else if hasSub input_file "demographics" then some Transform.pas
  else if hasSub input_file "wsft_stats" then some Transform.uba
  else if hasSub input_file "pug" then some Transform.pug
  else if hasSub input_file "monthly-pv" then some Transform.pv
  else if hasSub input_file "flood" then some Transform.flood
  else if hasSub input_file "earthquake-events" then some Transform.ee
  else if hasSub input_file "lc" then some Transform.lc
  else if hasSub input_file "fwi" then some Transform.fwi
  else none

/-- Spec-side count of how many of the dispatcher's recognized substrings a
filename matches (the claim's notion of an ambiguous name is a count of at
least two). -/
def matchCount (f : String) : ℕ :=
  (if hasSub f "population-growth" then 1 else 0)
  + (if hasSub f "demographics" then 1 else 0)
  + (if hasSub f "wsft_stats" then 1 else 0)
  + (if hasSub f "pug" then 1 else 0)
  + (if hasSub f "monthly-pv" then 1 else 0)
  + (if hasSub f "flood" then 1 else 0)
  + (if hasSub f "earthquake-events" then 1 else 0)
  + (if hasSub f "lc" then 1 else 0)
  + (if hasSub f "fwi" then 1 else 0)

/-! ## Spec-side comparison definitions -/

/-- Spec-side restatement of the danger classification, following the spec's
threshold table word for word: six fixed thresholds (< 5.2 "Very low",
< 11.2 "Low", < 21.3 "Moderate", < 38.0 "High", < 50.0 "Very high", else
"Extreme"), with a missing index mapping to "Unknown". -/
def dangerOfIndexSpec : Option ℚ → String
  | none => "Unknown"
  | some x =>
    if x < 52/10 then "Very low"
    else if x < 112/10 then "Low"
    else if x < 213/10 then "Moderate"
    else if x < 38 then "High"
    else if x < 50 then "Very high"
    else "Extreme"

/-- Spec-side restatement of the week-to-month lookup table exactly as the
claim enumerates it: weeks 1-4 Jan, 5-9 Feb, 10-13 Mar, 14-17 Apr, 18-22 May,
23-26 Jun, 27-30 Jul, 31-35 Aug, 36-39 Sep, 40-43 Oct, 44-47 Nov, 48-53 Dec. -/
def monthOfWeekSpec (week : ℕ) : String :=
  if 1 ≤ week ∧ week ≤ 4 then "Jan"
  else if 5 ≤ week ∧ week ≤ 9 then "Feb"
  else if 10 ≤ week ∧ week ≤ 13 then "Mar"
  else if 14 ≤ week ∧ week ≤ 17 then "Apr"
  else if 18 ≤ week ∧ week ≤ 22 then "May"
  else if 23 ≤ week ∧ week ≤ 26 then "Jun"
  else if 27 ≤ week ∧ week ≤ 30 then "Jul"
  else if 31 ≤ week ∧ week ≤ 35 then "Aug"
  else if 36 ≤ week ∧ week ≤ 39 then "Sep"
  else if 40 ≤ week ∧ week ≤ 43 then "Oct"
  else if 44 ≤ week ∧ week ≤ 47 then "Nov"
  else if 48 ≤ week ∧ week ≤ 53 then "Dec"
  else ""

/-! ## Concrete inputs used by witnesses and counterexamples -/

/-- The spec's worked population-growth example input. -/
def pgExample : List PGIn := [⟨2018, 100000⟩, ⟨2019, 105000⟩, ⟨2020, 110250⟩]

/-- The spec's expected output for `pgExample`. -/
def pgExpected : List PGOut :=
  [⟨2018, 100000, none⟩, ⟨2019, 105000, some 5⟩, ⟨2020, 110250, some 5⟩]

/-- A filename matching two recognized substrings. -/
def ambiguousName : String := "population-growth-flood.csv"

/-- A pg table with a repeated `yearName`. -/
def pgDup : List PGOut := [⟨2000, 100, none⟩, ⟨2000, 100, none⟩]

/-- A one-row uba table sharing year 2000. -/
def ubaOne : List UBAOut := [⟨1, 2000, 10, none⟩]

/-- A two-row uba table, both rows year 2000. -/
def ubaDup : List UBAOut := [⟨1, 2000, 10, none⟩, ⟨2, 2000, 10, none⟩]

/-- The merged row produced for each `pgDup` x `ubaOne` pair. -/
def pugDupRow : PugRow := ⟨2000, 100, none, 1, 10, none, 10, none⟩

/-- A well-formed pg table with distinct years. -/
def pgW : List PGOut := [⟨2018, 100, none⟩, ⟨2019, 105, some 5⟩]

/-- A well-formed uba table with the same two years. -/
def ubaW : List UBAOut := [⟨1, 2018, 10, none⟩, ⟨2, 2019, 11, some 10⟩]

/-- The join of `pgW` and `ubaW`. -/
def pugW : List PugRow :=
  [⟨2018, 100, none, 1, 10, none, 10, none⟩,
   ⟨2019, 105, some 5, 2, 11, some 10, 9545/1000, some (1/2)⟩]

/-- A demographics input with one "0-1" row and one "1-4" row for sex `f`. -/
def pasExample : List PASIn := [⟨"0-1", "f", 2⟩, ⟨"1-4", "f", 3⟩, ⟨"5-9", "f", 4⟩]

/-- A demographics input that also has a pre-existing "0-4" row and
fractional populations. -/
def pasCex : List PASIn :=
  [⟨"0-1", "f", 10123/1000⟩, ⟨"1-4", "f", 20456/1000⟩, ⟨"0-4", "f", 5⟩]

/-- A flood input table with only the `fluvial_2020` column. -/
def floodFluvial : Table :=
  [("year", [1985, 2015]), ("fluvial_2020", [25/10, 35/10])]

/-- A flood input table with all four flood columns. -/
def floodAll : Table :=
  [("year", [1985, 2015]), ("coastal_2020", [1, 2]),
   ("fluvial_2020", [25/10, 35/10]), ("pluvial_2020", [3, 4]),
   ("comb_2020", [5, 6])]

/-- The `fu.csv` contents produced from `floodFluvial`. -/
def fuTable : List FloodRow := [⟨1, 1985, 25/10⟩, ⟨2, 2015, 35/10⟩]

/- Decidable equality for `Except`, for checking concrete transform runs. -/
deriving instance DecidableEq for Except

/-! ## Supporting lemmas -/

theorem pgRows_length (prev : Option ℚ) (l : List PGIn) :
    (pgRows prev l).length = l.length := by
  induction l generalizing prev with
  | nil => rfl
  | cons x xs ih => simp [pgRows, ih]

theorem pgRows_getElem :
    ∀ (l : List PGIn) (prev : Option ℚ) (i : ℕ) (a b : PGIn),
      1 ≤ i → l[i-1]? = some a → l[i]? = some b →
      (pgRows prev l)[i]? = some (pgStep (some a.Population) b) := by
  intro l
  induction l with
  | nil => intro prev i a b h1 ha hb; simp at hb
  | cons x xs ih =>
    intro prev i a b h1 ha hb
    match i, h1 with
    | Nat.succ j, _ =>
      cases j with
      | zero =>
        simp only [List.getElem?_cons_zero, Nat.sub_self] at ha
        obtain rfl : x = a := by injection ha
        simp only [List.getElem?_cons_succ] at hb
        cases xs with
        | nil => simp at hb
        | cons y ys =>
          simp only [List.getElem?_cons_zero] at hb
          obtain rfl : y = b := by injection hb
          simp [pgRows]
      | succ k =>
        simp only [Nat.succ_sub_one, List.getElem?_cons_succ] at ha hb
        have := ih (some x.Population) (k + 1) a b (by omega)
          (by simpa using ha) hb
        simpa [pgRows] using this

/-! ## C1 -/

/-- C1: for every population-growth input, after sorting rows by `Year` the
first output row's `populationGrowthPercentage` is undefined, every later
row's equals `(pop[i] - pop[i-1]) / pop[i-1] * 100` rounded to 3 decimal
places, and the spec's worked example produces exactly the stated output. -/
theorem clean_pg_growth_formula :
    (∀ (rows : List PGIn) (r0 : PGOut),
        (clean_pg rows).head? = some r0 → r0.populationGrowthPercentage = none) ∧
    (∀ (rows : List PGIn) (i : ℕ) (a b : PGIn) (ri : PGOut),
        1 ≤ i → (sortByYear rows)[i-1]? = some a → (sortByYear rows)[i]? = some b →
        (clean_pg rows)[i]? = some ri →
        ri.populationGrowthPercentage =
          some (roundTo 3 ((b.Population - a.Population) / a.Population * 100))) ∧
    clean_pg pgExample = pgExpected := by
  refine ⟨?_, ?_, by decide⟩
  · intro rows r0 h
    unfold clean_pg at h
    cases hs : sortByYear rows with
    | nil => rw [hs] at h; simp [pgRows] at h
    | cons x xs =>
      rw [hs] at h
      simp only [pgRows, List.head?_cons, Option.some.injEq] at h
      rw [← h]
      rfl
  · intro rows i a b ri h1 ha hb hr
    have := pgRows_getElem (sortByYear rows) none i a b h1 ha hb
    unfold clean_pg at hr
    rw [hr] at this
    obtain rfl : ri = pgStep (some a.Population) b := by injection this
    rfl

/-- Witness for C1: the theorem applied to the spec's worked example at row
index 1. -/
theorem clean_pg_growth_formula_witness :
    (⟨2019, 105000, some 5⟩ : PGOut).populationGrowthPercentage =
      some (roundTo 3 ((105000 - 100000) / 100000 * 100)) :=
  clean_pg_growth_formula.2.1 pgExample 1 ⟨2018, 100000⟩ ⟨2019, 105000⟩
    ⟨2019, 105000, some 5⟩ (by decide) (by decide) (by decide) (by decide)

/-! ## C4 -/

/-- C4: the danger classification is a total function agreeing with the
spec's threshold table, a missing index maps to "Unknown", and every
boundary value resolves to the upper bucket. -/
theorem categorize_danger_spec :
    (∀ q : Option ℚ, categorize_danger q = dangerOfIndexSpec q) ∧
    categorize_danger none = "Unknown" ∧
    categorize_danger (some (52/10)) = "Low" ∧
    categorize_danger (some (112/10)) = "Moderate" ∧
    categorize_danger (some (213/10)) = "High" ∧
    categorize_danger (some 38) = "Very high" ∧
    categorize_danger (some 50) = "Extreme" :=
  ⟨fun q => by cases q <;> rfl, by decide, by decide, by decide, by decide,
   by decide, by decide⟩

/-! ## C5 -/

/-- C5: on every week number from 1 to 53 the code's week-to-month bucketing
agrees with the fixed lookup table enumerated by the claim. -/
theorem get_month_name_iso_table :
    ∀ week : ℕ, 1 ≤ week → week ≤ 53 →
      get_month_name_iso week = monthOfWeekSpec week := by
  intro w h1 h2
  interval_cases w <;> rfl

/-- Witness for C5: the table theorem applied at weeks 20 and 53. -/
theorem get_month_name_iso_table_witness :
    get_month_name_iso 20 = monthOfWeekSpec 20 ∧
    get_month_name_iso 53 = monthOfWeekSpec 53 :=
  ⟨get_month_name_iso_table 20 (by decide) (by decide),
   get_month_name_iso_table 53 (by decide) (by decide)⟩

/-! ## C10 -/

/-- C10: every output row of the age/sex transform has `yearName` equal to
the constant 2021, whatever the input. -/
theorem clean_pas_yearName_const :
    ∀ (rows : List PASIn) (r : PASOut), r ∈ clean_pas rows → r.yearName = 2021 := by
  intro rows r h
  unfold clean_pas at h
  have h2 := (List.perm_insertionSort _ _).mem_iff.mp h
  rcases List.mem_map.mp h2 with ⟨k, hk, rfl⟩
  rfl

/-- Witness for C10: the theorem applied to a concrete input's first row. -/
theorem clean_pas_yearName_const_witness :
    ((clean_pas pasExample).getD 0 default).yearName = 2021 :=
  clean_pas_yearName_const pasExample _ (by decide)

/-! ## C2 -/

/-- C2 counterexample: "population-growth-flood.csv" matches two recognized
substrings, yet the dispatcher does not fail - it invokes the
population-growth transform, the first match in the if/elif chain. -/
theorem dispatch_ambiguous_first_match_cex :
    matchCount ambiguousName = 2 ∧ dispatch ambiguousName = some Transform.pg ∧
    dispatch ambiguousName ≠ none := by decide

/-- C2 amended: the dispatcher fails with the selection error and usage
message exactly when the filename matches none of the recognized substrings;
a filename matching several substrings is dispatched to the first match in
the if/elif priority order rather than rejected. -/
theorem dispatch_none_iff_no_match (f : String) :
    dispatch f = none ↔ matchCount f = 0 := by
  unfold dispatch matchCount
  cases h1 : hasSub f "population-growth" <;>
  cases h2 : hasSub f "demographics" <;>
  cases h3 : hasSub f "wsft_stats" <;>
  cases h4 : hasSub f "pug" <;>
  cases h5 : hasSub f "monthly-pv" <;>
  cases h6 : hasSub f "flood" <;>
  cases h7 : hasSub f "earthquake-events" <;>
  cases h8 : hasSub f "lc" <;>
  cases h9 : hasSub f "fwi" <;> simp

/-- Witness for C2's amended theorem at a concrete unmatched filename. -/
theorem dispatch_none_iff_no_match_witness :
    dispatch "mystery.csv" = none ↔ matchCount "mystery.csv" = 0 :=
  dispatch_none_iff_no_match "mystery.csv"

/-! ## C3 -/

theorem uba_filter_year_length (uba : List UBAOut) (y : ℤ)
    (h : (uba.map UBAOut.yearName).Nodup) :
    (uba.filter (fun u => u.yearName == y)).length =
      if (uba.map UBAOut.yearName).contains y then 1 else 0 := by
  induction uba with
  | nil => simp
  | cons u us ih =>
    simp only [List.map_cons, List.nodup_cons] at h
    by_cases hy : u.yearName = y
    · subst hy
      rw [List.filter_cons_of_pos (by simp)]
      have hnil : us.filter (fun v => v.yearName == u.yearName) = [] := by
        rw [List.filter_eq_nil_iff]
        intro v hv hvy
        simp only [beq_iff_eq] at hvy
        exact h.1 (hvy ▸ List.mem_map_of_mem UBAOut.yearName hv)
      simp [hnil]
    · rw [List.filter_cons_of_neg (by simp [hy])]
      rw [ih h.2]
      simp [List.contains_cons, Ne.symm hy]

theorem joinPug_length (pg : List PGOut) (uba : List UBAOut)
    (h : (uba.map UBAOut.yearName).Nodup) :
    (joinPug pg uba).length =
      pg.countP (fun p => (uba.map UBAOut.yearName).contains p.yearName) := by
  induction pg with
  | nil => rfl
  | cons p ps ih =>
    simp only [joinPug, List.flatMap_cons, List.length_append, List.length_map] at ih ⊢
    rw [uba_filter_year_length uba p.yearName h, List.countP_cons, ih]
    split <;> omega

theorem ratioOf_none_iff (a b : Option ℚ) :
    ratioOf a b = none ↔ (b = some 0 ∨ b = none ∨ a = none) := by
  unfold ratioOf
  by_cases hb : b = some 0
  · simp [hb]
  · rw [if_neg hb]
    cases a <;> cases b <;> simp_all

theorem ratioOf_defined (a b : Option ℚ) (p g : ℚ) (ha : a = some p)
    (hb : b = some g) (hg : g ≠ 0) :
    ratioOf a b = some (roundTo 3 (p / g)) := by
  subst ha hb
  unfold ratioOf
  rw [if_neg (by simp [hg])]

theorem clean_pug_ok (pg : List PGOut) (uba : List UBAOut) (out : List PugRow)
    (h : clean_pug pg uba = Except.ok out) : out = joinPug pg uba := by
  unfold clean_pug at h
  split at h
  · exact absurd h (by simp)
  · injection h with h2
    exact h2.symm

/-- C3 counterexample: with a repeated year 2000 in the pg table and a
single year-2000 uba row whose growth percentage is `NaN`, the join has 2
rows while only 1 `yearName` value is present in both inputs, and the ratio
is undefined although `ubaGrowthPercentage` is not 0. -/
theorem clean_pug_ratio_rowcount_cex :
    clean_pug pgDup ubaOne = Except.ok [pugDupRow, pugDupRow] ∧
    ((pgDup.map PGOut.yearName).dedup.filter
        (fun y => (ubaOne.map UBAOut.yearName).contains y)).length = 1 ∧
    pugDupRow.populationUrbanGrowthRatio = none ∧
    pugDupRow.ubaGrowthPercentage ≠ some 0 ∧
    (2 : ℕ) ≠ 1 :=
  ⟨by decide, by decide, by decide, by decide, by decide⟩

/-- C3 amended: when each input's `yearName` values are distinct and the
join succeeds, the output row count equals the number of `yearName` values
present in both inputs; in each output row `populationUrbanGrowthRatio` is
undefined exactly when `ubaGrowthPercentage` is 0 or either growth
percentage is itself undefined, and otherwise equals
`populationGrowthPercentage / ubaGrowthPercentage` rounded to 3 decimal
places. -/
theorem clean_pug_join_spec :
    ∀ (pg : List PGOut) (uba : List UBAOut) (out : List PugRow),
      (pg.map PGOut.yearName).Nodup → (uba.map UBAOut.yearName).Nodup →
      clean_pug pg uba = Except.ok out →
      out.length = ((pg.map PGOut.yearName).dedup.filter
          (fun y => (uba.map UBAOut.yearName).contains y)).length ∧
      ∀ r ∈ out,
        (r.populationUrbanGrowthRatio = none ↔
          (r.ubaGrowthPercentage = some 0 ∨ r.ubaGrowthPercentage = none ∨
           r.populationGrowthPercentage = none)) ∧
        ∀ p g, r.populationGrowthPercentage = some p →
          r.ubaGrowthPercentage = some g → g ≠ 0 →
          r.populationUrbanGrowthRatio = some (roundTo 3 (p / g)) := by
  intro pg uba out hpg huba hok
  obtain rfl := clean_pug_ok pg uba out hok
  constructor
  · rw [joinPug_length pg uba huba, hpg.dedup, List.filter_map,
      List.length_map, List.countP_eq_length_filter]
    rfl
  · intro r hr
    rcases List.mem_flatMap.mp hr with ⟨p, hp, hr2⟩
    rcases List.mem_map.mp hr2 with ⟨u, hu, rfl⟩
    exact ⟨ratioOf_none_iff _ _, fun pv gv hpv hgv hg0 =>
      ratioOf_defined _ _ pv gv hpv hgv hg0⟩

/-- Witness for C3's amended theorem at a concrete well-formed input pair. -/
theorem clean_pug_join_spec_witness :
    pugW.length = ((pgW.map PGOut.yearName).dedup.filter
        (fun y => (ubaW.map UBAOut.yearName).contains y)).length ∧
    (pugW.getD 1 default).populationUrbanGrowthRatio = some (roundTo 3 (5 / 10)) :=
  ⟨(clean_pug_join_spec pgW ubaW pugW (by decide) (by decide) (by decide)).1,
   ((clean_pug_join_spec pgW ubaW pugW (by decide) (by decide) (by decide)).2
      (pugW.getD 1 default) (by decide)).2 5 10 (by decide) (by decide) (by decide)⟩

/-! ## C7 -/

theorem filter_eq_singleton_of {α : Type} (l : List α) (a : α) (p : α → Bool)
    (hn : l.Nodup) (ha : a ∈ l) (hp : p a = true)
    (huniq : ∀ b ∈ l, p b = true → b = a) : l.filter p = [a] := by
  induction l with
  | nil => simp at ha
  | cons x xs ih =>
    rw [List.nodup_cons] at hn
    rcases List.mem_cons.mp ha with rfl | hmem
    · rw [List.filter_cons_of_pos hp]
      have hnil : xs.filter p = [] := by
        rw [List.filter_eq_nil_iff]
        intro b hb hpb
        have hba := huniq b (List.mem_cons_of_mem _ hb) hpb
        subst hba
        exact hn.1 hb
      rw [hnil]
    · have hxp : ¬ p x = true := by
        intro h
        have hx := huniq x (List.mem_cons_self _ _) h
        subst hx
        exact hn.1 hmem
      rw [List.filter_cons_of_neg hxp]
      exact ih hn.2 hmem (fun b hb hpb => huniq b (List.mem_cons_of_mem _ hb) hpb)

/-- C7 counterexample: an input holding a "0-1" row (10.123), a "1-4" row
(20.456) and a pre-existing "0-4" row (5) for sex `f` produces exactly one
"0-4" output row, but its count is 35.58 - the rounded sum of all three
rows - not 30.579, the sum of the two merged input populations. -/
theorem clean_pas_merge_cex :
    ((clean_pas pasCex).filter
        (fun r => r.ageBracket == "0-4" && r.sex == expandSex "f")).map PASOut.count
      = [3558/100] ∧
    (3558/100 : ℚ) ≠ 10123/1000 + 20456/1000 ∧
    (pasCex.getD 0 default).age_group = "0-1" ∧
    (pasCex.getD 0 default).population = 10123/1000 ∧
    (pasCex.getD 1 default).age_group = "1-4" ∧
    (pasCex.getD 1 default).population = 20456/1000 :=
  ⟨by decide, by decide, by decide, by decide, by decide, by decide⟩

/-- C7 amended: for an input whose rows mapping to bracket "0-4" for the
given sex are exactly one "0-1" row and one "1-4" row, the output contains
exactly one merged "0-4" row for that sex, and its count is the sum of the
two input populations rounded to 2 decimal places. -/
theorem clean_pas_merge_spec :
    ∀ (rows : List PASIn) (s : String) (r1 r2 : PASIn),
      r1.age_group = "0-1" → r2.age_group = "1-4" →
      r1.sex = s → r2.sex = s →
      rows.filter (fun r => replaceAge r.age_group == "0-4" &&
        expandSex r.sex == expandSex s) = [r1, r2] →
      ((clean_pas rows).filter
          (fun r => r.ageBracket == "0-4" && r.sex == expandSex s)).map PASOut.count
        = [roundTo 2 (r1.population + r2.population)] := by
  intro rows s r1 r2 h1 h2 hs1 hs2 hf
  have hr1rows : r1 ∈ rows := by
    have hmem : r1 ∈ rows.filter (fun r => replaceAge r.age_group == "0-4" &&
        expandSex r.sex == expandSex s) := by rw [hf]; simp
    exact (List.mem_filter.mp hmem).1
  -- the two filters over the input rows agree row by row
  have hQ : rows.filter (fun r => replaceAge r.age_group == "0-4" && r.sex == s)
      = [r1, r2] := by
    rw [← hf]
    apply List.filter_congr
    intro r hr
    by_cases hag : replaceAge r.age_group = "0-4"
    · by_cases hsx : r.sex = s
      · simp [hag, hsx]
      · have hes : ¬ expandSex r.sex = expandSex s := by
          intro he
          have hrin : r ∈ rows.filter (fun r => replaceAge r.age_group == "0-4" &&
              expandSex r.sex == expandSex s) :=
            List.mem_filter.mpr ⟨hr, by simp [hag, he]⟩
          rw [hf] at hrin
          simp only [List.mem_cons, List.not_mem_nil, or_false] at hrin
          rcases hrin with rfl | rfl
          · exact hsx hs1
          · exact hsx hs2
        have hb1 : (r.sex == s) = false := beq_eq_false_iff_ne.mpr hsx
        have hb2 : (expandSex r.sex == expandSex s) = false :=
          beq_eq_false_iff_ne.mpr hes
        rw [hb1, hb2]
    · have hb : (replaceAge r.age_group == "0-4") = false :=
        beq_eq_false_iff_ne.mpr hag
      rw [hb, Bool.false_and, Bool.false_and]
  -- the merged key appears exactly once among the group keys
  have hkmem : ("0-4", s) ∈ pasKeys rows := by
    unfold pasKeys
    rw [List.mem_dedup]
    have hm1 : mergeRow r1 ∈ rows.map mergeRow := List.mem_map_of_mem mergeRow hr1rows
    have hm2 := List.mem_map_of_mem (fun r : PASIn => (r.age_group, r.sex)) hm1
    simpa [mergeRow, replaceAge, h1, hs1] using hm2
  have hkey : (pasKeys rows).filter
      (fun k => k.1 == "0-4" && expandSex k.2 == expandSex s) = [("0-4", s)] := by
    refine filter_eq_singleton_of _ _ _ (List.nodup_dedup _) hkmem (by simp) ?_
    intro k hk hpk
    rcases List.mem_map.mp (List.mem_dedup.mp hk) with ⟨r, hr, rfl⟩
    rcases List.mem_map.mp hr with ⟨r0, hr0, rfl⟩
    simp only [mergeRow, Bool.and_eq_true, beq_iff_eq] at hpk
    have hrQ : r0 ∈ rows.filter (fun r => replaceAge r.age_group == "0-4" &&
        expandSex r.sex == expandSex s) := by
      refine List.mem_filter.mpr ⟨hr0, ?_⟩
      simp [hpk.1, hpk.2]
    rw [hf] at hrQ
    simp only [List.mem_cons, List.not_mem_nil, or_false] at hrQ
    rcases hrQ with rfl | rfl
    · simp [mergeRow, replaceAge, h1, hs1]
    · simp [mergeRow, replaceAge, h2, hs2]
  -- reduce the sorted output's filtered rows to the single merged row
  have hperm : ((clean_pas rows).filter
      (fun r => r.ageBracket == "0-4" && r.sex == expandSex s)).Perm
      ((((pasKeys rows).map (pasRow rows))).filter
        (fun r => r.ageBracket == "0-4" && r.sex == expandSex s)) :=
    (List.perm_insertionSort _ _).filter _
  have hbase : (((pasKeys rows).map (pasRow rows))).filter
      (fun r => r.ageBracket == "0-4" && r.sex == expandSex s)
      = [pasRow rows ("0-4", s)] := by
    rw [List.filter_map]
    have hcomp : ((fun r : PASOut => r.ageBracket == "0-4" && r.sex == expandSex s)
        ∘ pasRow rows) = fun k => k.1 == "0-4" && expandSex k.2 == expandSex s := rfl
    rw [hcomp, hkey]
    rfl
  have hsingle : (clean_pas rows).filter
      (fun r => r.ageBracket == "0-4" && r.sex == expandSex s)
      = [pasRow rows ("0-4", s)] :=
    List.perm_singleton.mp (hbase ▸ hperm)
  rw [hsingle]
  -- compute the merged group's sum
  have hsum : pasGroupSum rows ("0-4", s) = r1.population + r2.population := by
    unfold pasGroupSum
    rw [List.filter_map]
    have hcomp : ((fun r : PASIn => r.age_group == "0-4" && r.sex == s) ∘ mergeRow)
        = fun r => replaceAge r.age_group == "0-4" && r.sex == s := rfl
    rw [hcomp, hQ]
    simp [mergeRow]
  simp [pasRow, hsum]

/-- Witness for C7's amended theorem at a concrete three-row input. -/
theorem clean_pas_merge_spec_witness :
    ((clean_pas pasExample).filter
        (fun r => r.ageBracket == "0-4" && r.sex == expandSex "f")).map PASOut.count
      = [roundTo 2 ((2 : ℚ) + 3)] :=
  clean_pas_merge_spec pasExample "f" ⟨"0-1", "f", 2⟩ ⟨"1-4", "f", 3⟩
    rfl rfl rfl rfl (by decide)

/-! ## C6 and C9 -/

theorem lookupCol_isSome (t : Table) (c : String) (hc : c ∈ colNames t) :
    ∃ vs, lookupCol t c = some vs := by
  induction t with
  | nil => simp [colNames] at hc
  | cons p ps ih =>
    by_cases hp : p.1 = c
    · exact ⟨p.2, by simp [lookupCol, List.find?_cons, hp]⟩
    · simp only [colNames, List.map_cons, List.mem_cons] at hc
      rcases hc with h | h
      · exact absurd h.symm hp
      · rcases ih h with ⟨vs, hvs⟩
        refine ⟨vs, ?_⟩
        simp only [lookupCol, List.find?_cons, beq_eq_false_iff_ne.mpr hp]
        exact hvs

theorem floodRun_ok (L : List (String × String)) (t : Table)
    (hyear : "year" ∈ colNames t)
    (hrefl : ∀ p ∈ L, hasSub p.1 p.1 = true)
    (hcols : ∀ col ∈ colNames t, ∀ p ∈ L, hasSub col p.1 = true → col = p.1) :
    (floodRun t true L).2 = none ∧
    (floodRun t true L).1.map Prod.fst =
      (L.filter (fun p => (colNames t).contains p.1)).map Prod.snd := by
  induction L with
  | nil => exact ⟨rfl, rfl⟩
  | cons q qs ih =>
    obtain ⟨c, fname⟩ := q
    have hih := ih (fun p hp => hrefl p (List.mem_cons_of_mem _ hp))
      (fun col hcol p hp hs => hcols col hcol p (List.mem_cons_of_mem _ hp) hs)
    by_cases hc : c ∈ colNames t
    · have hpres : floodHas t c = true := by
        unfold floodHas
        rw [List.any_eq_true]
        exact ⟨c, hc, hrefl (c, fname) (List.mem_cons_self _ _)⟩
      obtain ⟨ys, hys⟩ := lookupCol_isSome t "year" hyear
      obtain ⟨vs, hvs⟩ := lookupCol_isSome t c hc
      have hcont : (colNames t).contains c = true := by simpa using hc
      simp only [floodRun, hpres, if_true, hys, hvs, List.filter_cons, hcont,
        List.map_cons]
      exact ⟨hih.1, by rw [← hih.2]⟩
    · have hpres : floodHas t c = false := by
        unfold floodHas
        rw [List.any_eq_false]
        intro col hcol hs
        have hcc : col = c :=
          hcols col hcol (c, fname) (List.mem_cons_self _ _) hs
        exact hc (hcc ▸ hcol)
      have hcont : (colNames t).contains c = false := by
        rw [List.contains_eq_any_beq, List.any_eq_false]
        intro col hcol he
        exact hc ((beq_iff_eq.mp he) ▸ hcol)
      simp only [floodRun, hpres, List.filter_cons, hcont]
      simpa using hih

theorem floodRun_err (L : List (String × String)) (t : Table)
    (hyear : "year" ∈ colNames t)
    (hrefl : ∀ p ∈ L, hasSub p.1 p.1 = true)
    (hcols : ∀ col ∈ colNames t, ∀ p ∈ L, hasSub col p.1 = true → col = p.1)
    (hsome : ∃ p ∈ L, p.1 ∈ colNames t) :
    floodRun t false L = ([], some "UnboundLocalError: os") := by
  induction L with
  | nil =>
    rcases hsome with ⟨p, hp, _⟩
    simp at hp
  | cons q qs ih =>
    obtain ⟨c, fname⟩ := q
    by_cases hc : c ∈ colNames t
    · have hpres : floodHas t c = true := by
        unfold floodHas
        rw [List.any_eq_true]
        exact ⟨c, hc, hrefl (c, fname) (List.mem_cons_self _ _)⟩
      obtain ⟨ys, hys⟩ := lookupCol_isSome t "year" hyear
      obtain ⟨vs, hvs⟩ := lookupCol_isSome t c hc
      simp [floodRun, hpres, hys, hvs]
    · have hpres : floodHas t c = false := by
        unfold floodHas
        rw [List.any_eq_false]
        intro col hcol hs
        have hcc : col = c :=
          hcols col hcol (c, fname) (List.mem_cons_self _ _) hs
        exact hc (hcc ▸ hcol)
      have hsome2 : ∃ p ∈ qs, p.1 ∈ colNames t := by
        rcases hsome with ⟨p, hp, hpc⟩
        rcases List.mem_cons.mp hp with rfl | h
        · exact absurd hpc hc
        · exact ⟨p, h, hpc⟩
      simp only [floodRun, hpres, if_false]
      exact ih (fun p hp => hrefl p (List.mem_cons_of_mem _ hp))
        (fun col hcol p hp hs => hcols col hcol p (List.mem_cons_of_mem _ hp) hs)
        hsome2

/-- C6: for every flood input table with a `year` column whose column names
contain the four recognized flood names only as exact matches, the default
run succeeds without error and produces exactly the output files of the
flood columns present, skipping absent ones. -/
theorem clean_flood_files_spec :
    ∀ t : Table, "year" ∈ colNames t →
      (∀ col ∈ colNames t, ∀ p ∈ floodCols, hasSub col p.1 = true → col = p.1) →
      (clean_flood t none).2 = none ∧
      (clean_flood t none).1.map Prod.fst =
        (floodCols.filter (fun p => (colNames t).contains p.1)).map Prod.snd := by
  intro t hyear hcols
  exact floodRun_ok floodCols t hyear (by decide) hcols

/-- Witness for C6: an input with only `fluvial_2020` yields exactly
`fu.csv`; an input with all four columns yields all four files. -/
theorem clean_flood_files_spec_witness :
    (clean_flood floodFluvial none).2 = none ∧
    (clean_flood floodFluvial none).1.map Prod.fst =
      (floodCols.filter (fun p => (colNames floodFluvial).contains p.1)).map Prod.snd ∧
    (clean_flood floodFluvial none).1.map Prod.fst = ["fu.csv"] ∧
    (clean_flood floodAll none).1.map Prod.fst =
      ["cu.csv", "fu.csv", "pu.csv", "comb.csv"] :=
  ⟨(clean_flood_files_spec floodFluvial (by decide) (by decide)).1,
   (clean_flood_files_spec floodFluvial (by decide) (by decide)).2,
   ((clean_flood_files_spec floodFluvial (by decide) (by decide)).2).trans (by decide),
   ((clean_flood_files_spec floodAll (by decide) (by decide)).2).trans (by decide)⟩

/-- C9: with an explicitly supplied output directory and at least one of the
four flood columns present, `clean_flood` stops with an unbound-name error
(`os` was only imported in the default-directory branch) before writing any
output file. -/
theorem clean_flood_output_dir_unbound :
    ∀ (t : Table) (d : String), "year" ∈ colNames t →
      (∀ col ∈ colNames t, ∀ p ∈ floodCols, hasSub col p.1 = true → col = p.1) →
      (∃ p ∈ floodCols, p.1 ∈ colNames t) →
      clean_flood t (some d) = ([], some "UnboundLocalError: os") := by
  intro t d hyear hcols hsome
  exact floodRun_err floodCols t hyear (by decide) hcols hsome

/-- Witness for C9 at a concrete fluvial-only table. -/
theorem clean_flood_output_dir_unbound_witness :
    clean_flood floodFluvial (some "data/out") = ([], some "UnboundLocalError: os") :=
  clean_flood_output_dir_unbound floodFluvial "data/out" (by decide) (by decide)
    (by decide)

/-! ## C8 -/

theorem ubaRows_length (i : ℕ) (prev : Option ℚ) (l : List UBAIn) :
    (ubaRows i prev l).length = l.length := by
  induction l generalizing i prev with
  | nil => rfl
  | cons x xs ih => simp [ubaRows, ih]

theorem floodTypeTable_length (ys vs : List ℚ) :
    (floodTypeTable ys vs).length ≤ ys.length := by
  unfold floodTypeTable
  rw [List.length_insertionSort, List.length_map, List.enum_length,
    List.length_zip]
  exact min_le_left _ _

theorem floodRun_table_length (L : List (String × String)) (t : Table)
    (p : String × List FloodRow) (ys : List ℚ)
    (hy : lookupCol t "year" = some ys)
    (hmem : p ∈ (floodRun t true L).1) : p.2.length ≤ ys.length := by
  induction L with
  | nil => simp [floodRun] at hmem
  | cons q qs ih =>
    obtain ⟨c, fname⟩ := q
    by_cases hpres : floodHas t c = true
    · cases hlc : lookupCol t c with
      | none => simp [floodRun, hpres, hy, hlc] at hmem
      | some vs =>
        simp only [floodRun, hpres, if_true, hy, hlc] at hmem
        rcases List.mem_cons.mp hmem with rfl | h
        · exact floodTypeTable_length ys vs
        · exact ih h
    · simp only [Bool.not_eq_true] at hpres
      simp only [floodRun, hpres] at hmem
      exact ih hmem

theorem joinPug_le_uba (pg : List PGOut) (uba : List UBAOut)
    (hpg : (pg.map PGOut.yearName).Nodup) (huba : (uba.map UBAOut.yearName).Nodup) :
    (joinPug pg uba).length ≤ uba.length := by
  rw [joinPug_length pg uba huba, List.countP_eq_length_filter]
  have hsub : List.Sublist
      ((pg.filter (fun p => (uba.map UBAOut.yearName).contains p.yearName)).map
        PGOut.yearName)
      (pg.map PGOut.yearName) := (List.filter_sublist _).map _
  have hnd : ((pg.filter
      (fun p => (uba.map UBAOut.yearName).contains p.yearName)).map PGOut.yearName).Nodup :=
    hpg.sublist hsub
  have hss : ∀ y ∈ (pg.filter
      (fun p => (uba.map UBAOut.yearName).contains p.yearName)).map PGOut.yearName,
      y ∈ uba.map UBAOut.yearName := by
    intro y hy2
    rcases List.mem_map.mp hy2 with ⟨r, hr, rfl⟩
    have hc := (List.mem_filter.mp hr).2
    simpa using hc
  calc (pg.filter (fun p => (uba.map UBAOut.yearName).contains p.yearName)).length
      = ((pg.filter
          (fun p => (uba.map UBAOut.yearName).contains p.yearName)).map
            PGOut.yearName).length := by
        rw [List.length_map]
    _ = ((pg.filter
          (fun p => (uba.map UBAOut.yearName).contains p.yearName)).map
            PGOut.yearName).toFinset.card := by
        rw [List.toFinset_card_of_nodup hnd]
    _ ≤ (uba.map UBAOut.yearName).toFinset.card := by
        apply Finset.card_le_card
        intro y hy2
        rw [List.mem_toFinset] at hy2 ⊢
        exact hss y hy2
    _ ≤ (uba.map UBAOut.yearName).length := List.toFinset_card_le _
    _ = uba.length := List.length_map _ _

/-- C8 amended: every per-dataset transform's output row count is at most
its input row count (for the flood transform, each produced file's row count
is at most the input row count), and the population-urban-growth join obeys
the same bound against each of its two inputs whenever each input's
`yearName` values are distinct; with repeated `yearName` values the join can
exceed an input's row count. -/
theorem row_count_le_spec :
    (∀ rows : List PGIn, (clean_pg rows).length ≤ rows.length) ∧
    (∀ rows : List PASIn, (clean_pas rows).length ≤ rows.length) ∧
    (∀ rows : List UBAIn, (clean_uba rows).length ≤ rows.length) ∧
    (∀ rows : List LCIn, (clean_lc rows).length ≤ rows.length) ∧
    (∀ rows : List PVIn, (clean_pv rows).length ≤ rows.length) ∧
    (∀ rows : List EEIn, (clean_ee rows).length ≤ rows.length) ∧
    (∀ rows : List FWIIn, (clean_fwi rows).length ≤ rows.length) ∧
    (∀ (t : Table) (p : String × List FloodRow) (ys : List ℚ),
        p ∈ (clean_flood t none).1 → lookupCol t "year" = some ys →
        p.2.length ≤ ys.length) ∧
    (∀ (pg : List PGOut) (uba : List UBAOut) (out : List PugRow),
        (pg.map PGOut.yearName).Nodup → (uba.map UBAOut.yearName).Nodup →
        clean_pug pg uba = Except.ok out →
        out.length ≤ pg.length ∧ out.length ≤ uba.length) := by
  refine ⟨?_, ?_, ?_, ?_, ?_, ?_, ?_, ?_, ?_⟩
  · intro rows
    unfold clean_pg sortByYear
    rw [pgRows_length, List.length_insertionSort]
  · intro rows
    unfold clean_pas
    rw [List.length_insertionSort, List.length_map]
    refine le_trans (List.Sublist.length_le (List.dedup_sublist _)) ?_
    simp [List.length_map]
  · intro rows
    unfold clean_uba sortUBAByYear
    rw [ubaRows_length, List.length_insertionSort]
  · intro rows
    unfold clean_lc
    rw [List.length_insertionSort, List.length_map]
    exact List.length_filter_le _ _
  · intro rows
    unfold clean_pv
    rw [List.length_insertionSort, List.length_map]
  · intro rows
    unfold clean_ee
    rw [List.length_insertionSort, List.length_map]
    exact List.length_filter_le _ _
  · intro rows
    unfold clean_fwi
    rw [List.length_insertionSort, List.length_map]
  · intro t p ys hmem hy
    exact floodRun_table_length floodCols t p ys hy hmem
  · intro pg uba out hpg huba hok
    obtain rfl := clean_pug_ok pg uba out hok
    constructor
    · rw [joinPug_length pg uba huba]
      exact List.countP_le_length _
    · exact joinPug_le_uba pg uba hpg huba

/-- C8 counterexample: joining two pg rows for year 2000 with two uba rows
for year 2000 yields 4 output rows, exceeding both inputs' row counts of 2,
so the join does fabricate rows when years repeat. -/
theorem row_count_join_cex :
    (clean_pug pgDup ubaDup).toOption.map List.length = some 4 ∧
    pgDup.length = 2 ∧ ubaDup.length = 2 ∧ ¬ (4 ≤ 2) :=
  ⟨by decide, by decide, by decide, by decide⟩

/-- Witness for C8's amended theorem at concrete inputs, including the
hypothesis-bearing flood and join components. -/
theorem row_count_le_spec_witness :
    (clean_pg pgExample).length ≤ pgExample.length ∧
    (clean_pas pasExample).length ≤ pasExample.length ∧
    (("fu.csv", fuTable) : String × List FloodRow).2.length ≤
      ([1985, 2015] : List ℚ).length ∧
    (pugW.length ≤ pgW.length ∧ pugW.length ≤ ubaW.length) :=
  ⟨row_count_le_spec.1 pgExample,
   row_count_le_spec.2.1 pasExample,
   row_count_le_spec.2.2.2.2.2.2.2.1 floodFluvial ("fu.csv", fuTable) [1985, 2015]
     (by decide) (by decide),
   row_count_le_spec.2.2.2.2.2.2.2.2 pgW ubaW pugW (by decide) (by decide) (by decide)⟩
